import Mathlib

/-!
# Verification of `last-spot` (`src/main.rs`)

Shallow embedding of the program's core functions:

* `get_recommendations` (Last.fm discovery engine, `main.rs` lines 181-236),
* the authorization-code extraction inside `get_spotify_auth_token`
  (`main.rs` lines 141-149),
* `create_spotify_playlist` (Spotify reconciliation and playlist builder,
  `main.rs` lines 238-373).

Network calls are modelled by oracle environments: each outbound request is a
field of an environment record, and the distinct outcomes the Rust code can
observe (transport failure of `send()`, non-2xx status, JSON deserialization
failure, parsed value) are the constructors of `ApiResult`.  A `?` in the Rust
source becomes propagation of `Except.error`; an `if let Ok(..)` that absorbs a
failure becomes a `match` that continues.
-/

namespace LastSpot

/-- Outcomes of one HTTP request as the Rust code distinguishes them:
`transportErr` is `send().await` returning `Err`, `badStatus` is a non-2xx
response, `deserErr` is a 2xx response whose body fails to deserialize into
the expected shape, and `ok` carries the deserialized value. -/
inductive ApiResult (α : Type) where
  | transportErr
  | badStatus
  | deserErr
  | ok (a : α)
deriving Repr, DecidableEq

/-! ## Last.fm response shapes (`main.rs` lines 58-93) -/

/-- `struct TopArtist { name: String }` -/
structure TopArtist where
  name : String
deriving Repr, DecidableEq

/-- `struct TopAlbum { name: String, artist: TopArtist }` -/
structure TopAlbum where
  name : String
  artist : TopArtist
deriving Repr, DecidableEq

/-- `struct TopAlbumsContent { album: Vec<TopAlbum> }` -/
structure TopAlbumsContent where
  album : List TopAlbum
deriving Repr, DecidableEq

/-- `struct TopAlbums { topalbums: TopAlbumsContent }` -/
structure TopAlbums where
  topalbums : TopAlbumsContent
deriving Repr, DecidableEq

/-- `struct SimilarArtist { name: String }` -/
structure SimilarArtist where
  name : String
deriving Repr, DecidableEq

/-- `struct Similar { artist: Vec<SimilarArtist> }` -/
structure Similar where
  artist : List SimilarArtist
deriving Repr, DecidableEq

/-- `struct SimilarArtists { similarartists: Similar }` -/
structure SimilarArtists where
  similarartists : Similar
deriving Repr, DecidableEq

/-- Oracle environment for the three Last.fm requests `get_recommendations`
issues.  `topAlbums` models `client.get(&url).send().await?.json().await?`
where both a transport failure and a deserialization failure propagate with
`?` (collapsed into `Except.error ()`).  `similar` and `artistTopAlbums`
model `client.get(..).send().await?.json::<..>().await`: a transport failure
of `send()` propagates with `?` (`Except.error ()`), while a deserialization
failure is only observed through `if let Ok(..)` (modelled as `.ok none`). -/
structure LastFmEnv where
  topAlbums : Except Unit TopAlbums
  similar : String → Except Unit (Option SimilarArtists)
  artistTopAlbums : String → Except Unit (Option TopAlbums)

/-- Inner loop of `get_recommendations` (`main.rs` lines 215-231): iterate the
first 2 similar artists; for each, fetch its top album (`limit=1`, the code
takes `.first()`); on success push `(similar_artist.name, top_album.name)` and,
if the list has reached 10 entries, return from the whole function — the
`Bool` component is `true` exactly when that early `return Ok(recommendations)`
fired. -/
def processSimilar (env : LastFmEnv) (recs : List (String × String)) :
    List SimilarArtist → Except Unit (List (String × String) × Bool)
  | [] => .ok (recs, false)
  | s :: rest =>
    match env.artistTopAlbums s.name with
    | .error e => .error e
    | .ok none => processSimilar env recs rest
    | .ok (some artistAlbums) =>
      match artistAlbums.topalbums.album.head? with
      | none => processSimilar env recs rest
      | some topAlbum =>
        let recs' := recs ++ [(s.name, topAlbum.name)]
        if recs'.length ≥ 10 then .ok (recs', true)
        else processSimilar env recs' rest

/-- Outer loop of `get_recommendations` (`main.rs` lines 199-233): iterate the
user's top albums; skip an album whose artist is already in `seen_artists`
(modelled as a list with decidable membership, matching
`HashSet<String>::contains`), otherwise insert the artist and fetch its
similar artists (a transport failure propagates through `?`; a
deserialization failure fails the `if let Ok` and the loop continues);
process the first 2 similar artists with `processSimilar`, returning
immediately when it signals the early return at 10. -/
def processAlbums (env : LastFmEnv) (seen : List String)
    (recs : List (String × String)) :
    List TopAlbum → Except Unit (List (String × String))
  | [] => .ok recs
  | album :: rest =>
    if album.artist.name ∈ seen then
      processAlbums env seen recs rest
    else
      let seen' := album.artist.name :: seen
      match env.similar album.artist.name with
      | .error e => .error e
      | .ok none => processAlbums env seen' recs rest
      | .ok (some sim) =>
        match processSimilar env recs (sim.similarartists.artist.take 2) with
        | .error e => .error e
        | .ok (recs', true) => .ok recs'
        | .ok (recs', false) => processAlbums env seen' recs' rest

/-- `get_recommendations` (`main.rs` lines 181-236): fetch the user's top
albums (any failure is fatal, both `send` and `json` carry `?`), then run the
discovery loop starting from an empty `seen_artists` set and an empty
`recommendations` vector. -/
def get_recommendations (env : LastFmEnv) :
    Except Unit (List (String × String)) :=
  match env.topAlbums with
  | .error e => .error e
  | .ok ta => processAlbums env [] [] ta.topalbums.album

/-! ## Loopback auth server: authorization-code extraction
(`main.rs` lines 141-149)

```rust
let redirect_url = request_line.split_whitespace().nth(1)
    .ok_or("Invalid request")?;
let url = Url::parse(&format!("http://localhost{}", redirect_url))?;
let code = url.query_pairs()
    .find(|(key, _)| key == "code")
    .ok_or("No code found")?
    .1
    .into_owned();
```
-/

/-- Helper for `splitWhitespace`: walk the characters accumulating the
current word (reversed); a whitespace character ends the word, and empty
words are dropped. -/
def wordsAux (cur : List Char) : List Char → List String
  | [] => if cur = [] then [] else [⟨cur.reverse⟩]
  | c :: cs =>
    if c.isWhitespace then
      if cur = [] then wordsAux [] cs else ⟨cur.reverse⟩ :: wordsAux [] cs
    else wordsAux (c :: cur) cs

/-- `str::split_whitespace`: the whitespace-separated words of the string,
with no empty pieces. -/
def splitWhitespace (s : String) : List String := wordsAux [] s.data

/-- The characters after the first occurrence of `target`, or `none` when it
does not occur. -/
def afterChar (target : Char) : List Char → Option (List Char)
  | [] => none
  | c :: cs => if c = target then some cs else afterChar target cs

/-- The characters before the first occurrence of `target` (the whole list
when it does not occur). -/
def beforeChar (target : Char) : List Char → List Char
  | [] => []
  | c :: cs => if c = target then [] else c :: beforeChar target cs

/-- The query string of `Url::parse("http://localhost" ++ path)`: everything
after the first question mark of `path`, with a fragment (from `#` on)
stripped first.  The url crate's parse of such a URL succeeds for the
request paths a browser redirect produces, so the model is total. -/
def queryOf (path : String) : String :=
  match afterChar '?' (beforeChar '#' path.data) with
  | none => ""
  | some q => ⟨q⟩

/-- Split on a separator character, keeping empty pieces (as `str::split`
does; `queryPairs` drops the empty ones afterwards). -/
def splitOnChar (sep : Char) : List Char → List (List Char)
  | [] => [[]]
  | c :: cs =>
    let rest := splitOnChar sep cs
    if c = sep then [] :: rest
    else
      match rest with
      | [] => [[c]]
      | r :: rs => (c :: r) :: rs

/-- One `key=value` piece of a query string, split at the first equals sign;
a piece with no equals sign becomes a pair with an empty value. -/
def pairOfPiece (piece : List Char) : String × String :=
  match afterChar '=' piece with
  | none => (⟨piece⟩, "")
  | some v => (⟨beforeChar '=' piece⟩, ⟨v⟩)

/-- `Url::query_pairs()`: split the query on ampersands, skip empty pieces,
and split each piece at its first equals sign into a key/value pair.
Percent-decoding is the identity on the alphanumeric parameters this program
handles and is not modelled. -/
def queryPairs (q : String) : List (String × String) :=
  (splitOnChar '&' q.data).filterMap fun piece =>
    if piece = [] then none else some (pairOfPiece piece)

/-- The two error exits of the code-extraction fragment: the string errors
`"Invalid request"` (no path token in the request line) and `"No code found"`
(no `code` query parameter); the spec calls the latter
`MissingAuthorizationCode`. -/
inductive AuthError where
  | invalidRequest
  | missingAuthorizationCode
deriving Repr, DecidableEq

/-- The code-extraction fragment of `get_spotify_auth_token` (`main.rs` lines
141-149): take the second whitespace-separated token of the request line as
the redirect path, parse its query pairs, and return the value of the first
`code` parameter. -/
def extract_code (request_line : String) : Except AuthError String :=
  match (splitWhitespace request_line).get? 1 with
  | none => .error .invalidRequest
  | some redirect_url =>
    match (queryPairs (queryOf redirect_url)).find? (fun p => p.1 == "code") with
    | none => .error .missingAuthorizationCode
    | some p => .ok p.2

/-- The form body of the token-exchange POST (`main.rs` lines 164-168): the
only callback-dependent datum it carries is the extracted code, so two
callbacks yielding the same code proceed to identical token exchanges. -/
def tokenRequestForm (code redirect_uri : String) : List (String × String) :=
  [("grant_type", "authorization_code"), ("code", code),
   ("redirect_uri", redirect_uri)]

/-! ## Spotify response shapes (`main.rs` lines 25-56 and 298-312) -/

/-- `struct CreatePlaylistRequest { name, description, public }` -/
structure CreatePlaylistRequest where
  name : String
  description : String
  public : Bool
deriving Repr, DecidableEq

/-- `struct ExternalUrls { spotify: String }` -/
structure ExternalUrls where
  spotify : String
deriving Repr, DecidableEq

/-- `struct SpotifyPlaylist { id, external_urls }` -/
structure SpotifyPlaylist where
  id : String
  external_urls : ExternalUrls
deriving Repr, DecidableEq

/-- `struct SpotifyAlbum { uri: String }` -/
structure SpotifyAlbum where
  uri : String
deriving Repr, DecidableEq

/-- `struct SpotifyAlbums { items: Vec<SpotifyAlbum> }` -/
structure SpotifyAlbums where
  items : List SpotifyAlbum
deriving Repr, DecidableEq

/-- `struct Track { uri: String }` (local to `create_spotify_playlist`). -/
structure Track where
  uri : String
deriving Repr, DecidableEq

/-- `struct TracksResponse { items: Vec<Track> }` (local to
`create_spotify_playlist`). -/
structure TracksResponse where
  items : List Track
deriving Repr, DecidableEq

/-- `struct SearchResponse { tracks: Option<TracksResponse>, albums:
SpotifyAlbums }` (local to `create_spotify_playlist`): the `tracks` field may
be absent from the JSON, which serde maps to `None`. -/
structure SearchResponse where
  tracks : Option TracksResponse
  albums : SpotifyAlbums
deriving Repr, DecidableEq

/-- Oracle environment for the four Spotify requests `create_spotify_playlist`
issues, each keyed by the request datum that varies.  `createPlaylist` and
`search` use the full `ApiResult`: their `send()` carries `?` (transport
failure fatal), `search` checks the status (`badStatus` makes the loop
`continue`) and then parses with `json().await?` (deserialization failure
fatal).  `albumTracks` models the fallback request, whose `send()` result and
`json()` result are both consumed through `if let Ok` (outer `Except.error` =
transport failure, inner = deserialization failure; no status check in the
source).  `addTracks` models the batch write: `none` is a transport failure of
`send()` (fatal through `?`), `some b` is a completed response with
`b = status.is_success()`. -/
structure SpotifyEnv where
  createPlaylist : CreatePlaylistRequest → ApiResult SpotifyPlaylist
  search : String → ApiResult SearchResponse
  albumTracks : String → Except Unit (Except Unit TracksResponse)
  addTracks : String → List String → Option Bool

/-- The compound search query `format!("album:{} artist:{}", album, artist)`
(`main.rs` line 280). -/
def searchQuery (artist album : String) : String :=
  "album:" ++ album ++ " artist:" ++ artist

/-- Helper for `albumIdOf`: the characters after the last colon (the whole
list when there is none), accumulating the current piece reversed. -/
def afterLastColonAux (cur : List Char) : List Char → List Char
  | [] => cur.reverse
  | c :: cs =>
    if c = ':' then afterLastColonAux [] cs else afterLastColonAux (c :: cur) cs

/-- `album_result.uri.split(":").last().unwrap_or("")` (`main.rs` line 326):
the album id used in the fallback album-tracks URL — the part of the URI
after its last colon. -/
def albumIdOf (uri : String) : String :=
  ⟨afterLastColonAux [] uri.data⟩

/-- The track-resolution loop of `create_spotify_playlist` (`main.rs` lines
279-344), accumulating matched track URIs in recommendation order.  Per
recommendation: a transport failure of the search `send()` or a
deserialization failure of its 2xx body propagates (`?`); a non-2xx status
logs and continues.  If the parsed response has a `tracks` field, only its
first entry (if any) is recorded — the album fallback runs solely when the
field is absent; the fallback absorbs its own transport and deserialization
failures. -/
def resolveTracks (env : SpotifyEnv) :
    List (String × String) → Except Unit (List String)
  | [] => .ok []
  | (artist, album) :: rest =>
    match env.search (searchQuery artist album) with
    | .transportErr => .error ()
    | .badStatus => resolveTracks env rest
    | .deserErr => .error ()
    | .ok search_result =>
      match search_result.tracks with
      | some tracks =>
        match tracks.items.head? with
        | some track => Except.map (track.uri :: ·) (resolveTracks env rest)
        | none => resolveTracks env rest
      | none =>
        match search_result.albums.items.head? with
        | none => resolveTracks env rest
        | some album_result =>
          match env.albumTracks (albumIdOf album_result.uri) with
          | .error _ => resolveTracks env rest
          | .ok (.error _) => resolveTracks env rest
          | .ok (.ok tracks) =>
            match tracks.items.head? with
            | some track =>
              Except.map (track.uri :: ·) (resolveTracks env rest)
            | none => resolveTracks env rest

/-- Recursion core of `chunks100`, structural on a fuel argument so that the
kernel can evaluate it; the fuel is always at least the list's length, so the
`0, _ :: _` case is unreachable. -/
def chunks100Fuel : Nat → List String → List (List String)
  | _, [] => []
  | 0, _ :: _ => []
  | fuel + 1, x :: rest =>
    (x :: rest).take 100 :: chunks100Fuel fuel ((x :: rest).drop 100)

/-- `slice::chunks(100)` (`main.rs` line 351): consecutive sub-lists of 100
elements, the last one shorter when the length is not a multiple of 100;
an empty list yields no chunks. -/
def chunks100 (l : List String) : List (List String) :=
  chunks100Fuel l.length l

/-- The batch-addition loop of `create_spotify_playlist` (`main.rs` lines
351-367): one POST per chunk; a transport failure of `send()` propagates
(`?`), while a non-2xx status only prints a warning.  Returns the list of
chunks whose request completed without a transport failure, in issue
order. -/
def addTracksLoop (env : SpotifyEnv) (playlistId : String) :
    List (List String) → Except Unit (List (List String))
  | [] => .ok []
  | chunk :: rest =>
    match env.addTracks playlistId chunk with
    | none => .error ()
    | some _ => Except.map (chunk :: ·) (addTracksLoop env playlistId rest)

/-- The playlist-creation request body (`main.rs` lines 255-259): a name
fixed up to the current date, a fixed description, and `public: false` —
no caller input reaches any field. -/
def createPlaylistRequestFor (dateStr : String) : CreatePlaylistRequest :=
  { name := "Last.fm Discoveries - " ++ dateStr
    description := "Fresh music recommendations based on your Last.fm history"
    public := false }

/-- `create_spotify_playlist` (`main.rs` lines 238-373): create the playlist
(any failure — transport, non-2xx, or deserialization — is fatal), resolve
each recommendation to at most one track URI, add the URIs in chunks of 100,
and return the playlist URL.  The token and user id only feed request
headers/URLs and are absorbed into the environment's oracles; `dateStr`
stands for `chrono::Local::now().format("%Y-%m-%d")`.  Alongside the URL the
model returns the payloads of the batch-write calls, in issue order, so that
theorems can speak about the write calls the loop performs. -/
def create_spotify_playlist (env : SpotifyEnv) (dateStr : String)
    (recommendations : List (String × String)) :
    Except Unit (String × List (List String)) :=
  match env.createPlaylist (createPlaylistRequestFor dateStr) with
  | .transportErr => .error ()
  | .badStatus => .error ()
  | .deserErr => .error ()
  | .ok playlist =>
    match resolveTracks env recommendations with
    | .error e => .error e
    | .ok track_uris =>
      match addTracksLoop env playlist.id (chunks100 track_uris) with
      | .error e => .error e
      | .ok calls => .ok (playlist.external_urls.spotify, calls)

/-- Recursion core of `chunkLens100`, structural on a fuel argument that is
always at least `n`. -/
def chunkLens100Fuel : Nat → Nat → List Nat
  | _, 0 => []
  | 0, _ + 1 => []
  | fuel + 1, n + 1 => min 100 (n + 1) :: chunkLens100Fuel fuel (n + 1 - 100)

/-- The chunk sizes `slice::chunks(100)` produces on a list of `n` elements:
full chunks of 100 and a final partial chunk. -/
def chunkLens100 (n : Nat) : List Nat := chunkLens100Fuel n n

/-! ## Concrete environments used to evaluate the model on the gate inputs -/

/-- Similar-artist oracle under which every artist has the same single similar
artist, `"SharedSimilar"`. -/
def c1Sim : String → Except Unit (Option SimilarArtists) :=
  fun _ => .ok (some ⟨⟨[⟨"SharedSimilar"⟩]⟩⟩)

/-- Top-album oracle giving every artist the single top album `"SimTop"`. -/
def c1Ata : String → Except Unit (Option TopAlbums) :=
  fun _ => .ok (some ⟨⟨[⟨"SimTop", ⟨"X"⟩⟩]⟩⟩)

/-- Listening history with two top albums by two distinct artists, both of
whom share the similar artist `"SharedSimilar"`. -/
def c1Env : LastFmEnv :=
  ⟨.ok ⟨⟨[⟨"Album1", ⟨"ArtistA"⟩⟩, ⟨"Album2", ⟨"ArtistB"⟩⟩]⟩⟩, c1Sim, c1Ata⟩

/-- One top album whose artist's similar-artist lookup fails transport-wise
(`send()` returns `Err`). -/
def c3Env : LastFmEnv :=
  ⟨.ok ⟨⟨[⟨"Alb", ⟨"A"⟩⟩]⟩⟩, fun _ => .error (), fun _ => .ok none⟩

/-- Discovery environment that can overflow the cap: six top albums by six
distinct artists, each artist with two fresh similar artists, each similar
artist with one top album. -/
def c6Sim : String → Except Unit (Option SimilarArtists) :=
  fun a => .ok (some ⟨⟨[⟨a ++ "x"⟩, ⟨a ++ "y"⟩]⟩⟩)

/-- Top-album oracle deriving one album name from the artist's name. -/
def c6Ata : String → Except Unit (Option TopAlbums) :=
  fun s => .ok (some ⟨⟨[⟨s ++ "alb", ⟨s⟩⟩]⟩⟩)

/-- Six top albums by six distinct artists. -/
def c6Albums : List TopAlbum :=
  [⟨"Alb1", ⟨"A1"⟩⟩, ⟨"Alb2", ⟨"A2"⟩⟩, ⟨"Alb3", ⟨"A3"⟩⟩,
   ⟨"Alb4", ⟨"A4"⟩⟩, ⟨"Alb5", ⟨"A5"⟩⟩, ⟨"Alb6", ⟨"A6"⟩⟩]

/-- The ten recommendations `c6Sim`/`c6Ata` yield on `c6Albums`: the sixth
top artist is never reached. -/
def c6Out : List (String × String) :=
  [("A1x", "A1xalb"), ("A1y", "A1yalb"), ("A2x", "A2xalb"), ("A2y", "A2yalb"),
   ("A3x", "A3xalb"), ("A3y", "A3yalb"), ("A4x", "A4xalb"), ("A4y", "A4yalb"),
   ("A5x", "A5xalb"), ("A5y", "A5yalb")]

/-- Nine already-accumulated recommendations, one short of the cap. -/
def c6Nine : List (String × String) :=
  [("r1", "s1"), ("r2", "s2"), ("r3", "s3"), ("r4", "s4"), ("r5", "s5"),
   ("r6", "s6"), ("r7", "s7"), ("r8", "s8"), ("r9", "s9")]

/-- Spotify environment returning, for every search, a 2xx response whose
`tracks` field is present with an empty item list and whose album list has
one entry; the album-tracks follow-up would return one track. -/
def c2Env : SpotifyEnv :=
  ⟨fun _ => .ok ⟨"pl1", ⟨"https://open.spotify.com/playlist/pl1"⟩⟩,
   fun _ => .ok ⟨some ⟨[]⟩, ⟨[⟨"spotify:album:ALB"⟩]⟩⟩,
   fun _ => .ok (.ok ⟨[⟨"spotify:track:TRK"⟩]⟩),
   fun _ _ => some true⟩

/-- Spotify environment whose every search `send()` fails transport-wise. -/
def c4Env : SpotifyEnv :=
  ⟨fun _ => .ok ⟨"pl4", ⟨"https://open.spotify.com/playlist/pl4"⟩⟩,
   fun _ => .transportErr,
   fun _ => .ok (.error ()),
   fun _ _ => some true⟩

/-- Search oracle with a non-2xx status for one query, a transport failure
for a second, and a deserialization failure for every other query. -/
def c4WSearch : String → ApiResult SearchResponse :=
  fun q =>
    if q = searchQuery "A1" "B1" then .badStatus
    else if q = searchQuery "A2" "B2" then .transportErr
    else .deserErr

/-- Spotify environment wrapping `c4WSearch`. -/
def c4WEnv : SpotifyEnv :=
  ⟨fun _ => .ok ⟨"pl", ⟨"url"⟩⟩, c4WSearch, fun _ => .ok (.error ()),
   fun _ _ => some true⟩

/-- Spotify environment where every search matches one track and every batch
write's `send()` fails transport-wise. -/
def c9Env : SpotifyEnv :=
  ⟨fun _ => .ok ⟨"pl9", ⟨"https://open.spotify.com/playlist/pl9"⟩⟩,
   fun _ => .ok ⟨some ⟨[⟨"spotify:track:T9"⟩]⟩, ⟨[]⟩⟩,
   fun _ => .ok (.error ()),
   fun _ _ => none⟩

/-- Like `c9Env` but every batch write completes with a non-2xx status. -/
def c9WEnv : SpotifyEnv :=
  ⟨fun _ => .ok ⟨"pl9", ⟨"https://open.spotify.com/playlist/pl9"⟩⟩,
   fun _ => .ok ⟨some ⟨[⟨"spotify:track:T9"⟩]⟩, ⟨[]⟩⟩,
   fun _ => .ok (.error ()),
   fun _ _ => some false⟩

/-- Spotify environment whose batch writes all succeed. -/
def c8Env : SpotifyEnv :=
  ⟨fun _ => .ok ⟨"p", ⟨"u"⟩⟩, fun _ => .badStatus, fun _ => .error (),
   fun _ _ => some true⟩

/-- 250 track URIs. -/
def c8List : List String := List.replicate 250 "spotify:track:u"

/-- Like `c9WEnv` but with a playlist-creation oracle that accepts only the
fixed request for date `"2026-10-12"` and fails on every other request. -/
def c10Env : SpotifyEnv :=
  ⟨fun r =>
      if r = createPlaylistRequestFor "2026-10-12" then
        .ok ⟨"pl9", ⟨"https://open.spotify.com/playlist/pl9"⟩⟩
      else .deserErr,
   c9WEnv.search, c9WEnv.albumTracks, c9WEnv.addTracks⟩

/-! ## Theorems -/

/-- `List.find?` returns the head of the filtered list. -/
theorem find?_eq_filter_head {α : Type} (p : α → Bool) (l : List α) :
    l.find? p = (l.filter p).head? := by
  induction l with
  | nil => rfl
  | cons x xs ih =>
    cases hp : p x
    · rw [List.find?_cons_of_neg _ (by simp [hp]),
        List.filter_cons_of_neg (by simp [hp]), ih]
    · rw [List.find?_cons_of_pos _ hp, List.filter_cons_of_pos hp,
        List.head?_cons]

/-- C7: for any request line whose path token is
`/callback?code=ABC123&state=XYZ`, the auth server extracts the code
`ABC123`; for any request line whose path has no `code` query parameter, it
fails with `MissingAuthorizationCode` (`"No code found"`). -/
theorem extract_code_callback (l1 l2 p2 : String)
    (h1 : (splitWhitespace l1).get? 1 = some "/callback?code=ABC123&state=XYZ")
    (h2 : (splitWhitespace l2).get? 1 = some p2)
    (h3 : ∀ kv ∈ queryPairs (queryOf p2), kv.1 ≠ "code") :
    extract_code l1 = .ok "ABC123" ∧
    extract_code l2 = .error .missingAuthorizationCode := by
  constructor
  · simp only [extract_code, h1]
    rfl
  · simp only [extract_code, h2]
    have hnone :
        (queryPairs (queryOf p2)).find? (fun p => p.1 == "code") = none :=
      List.find?_eq_none.mpr (fun x hx => by simpa using h3 x hx)
    rw [hnone]

/-- C7, witness: the two callback request lines of the spec's example. -/
theorem extract_code_callback_witness :
    extract_code "GET /callback?code=ABC123&state=XYZ HTTP/1.1" =
      .ok "ABC123" ∧
    extract_code "GET /callback?state=XYZ HTTP/1.1" =
      .error .missingAuthorizationCode :=
  extract_code_callback _ _ "/callback?state=XYZ" (by decide) (by decide)
    (by decide)

/-- C5: the echoed `state` is never compared against the generated one —
the extracted code, and with it the token-exchange form body, depends only
on the `code` query parameters of the callback path: two callback request
lines agreeing on those (with different or absent `state` values) extract
the same code and proceed to identical token exchanges. -/
theorem extract_code_ignores_state (l1 l2 p1 p2 ru : String)
    (h1 : (splitWhitespace l1).get? 1 = some p1)
    (h2 : (splitWhitespace l2).get? 1 = some p2)
    (hcode : (queryPairs (queryOf p1)).filter (fun kv => kv.1 == "code") =
      (queryPairs (queryOf p2)).filter (fun kv => kv.1 == "code")) :
    extract_code l1 = extract_code l2 ∧
    Except.map (fun c => tokenRequestForm c ru) (extract_code l1) =
      Except.map (fun c => tokenRequestForm c ru) (extract_code l2) := by
  have key : extract_code l1 = extract_code l2 := by
    simp only [extract_code, h1, h2]
    rw [find?_eq_filter_head, find?_eq_filter_head, hcode]
  exact ⟨key, by rw [key]⟩

/-- The chunks of a list, concatenated, give the list back (fueled form). -/
theorem chunks100Fuel_flatten :
    ∀ (fuel : Nat) (l : List String), l.length ≤ fuel →
    (chunks100Fuel fuel l).flatten = l := by
  intro fuel
  induction fuel with
  | zero =>
    intro l hl
    cases l with
    | nil => rfl
    | cons x rest => simp at hl
  | succ f ih =>
    intro l hl
    cases l with
    | nil => rfl
    | cons x rest =>
      have hfit : ((x :: rest).drop 100).length ≤ f := by
        simp only [List.length_drop, List.length_cons]
        simp only [List.length_cons] at hl
        omega
      simp only [chunks100Fuel, List.flatten_cons]
      rw [ih _ hfit, List.take_append_drop]

/-- Every chunk has at most 100 elements (fueled form). -/
theorem chunks100Fuel_le :
    ∀ (fuel : Nat) (l : List String) (c : List String),
    c ∈ chunks100Fuel fuel l → c.length ≤ 100 := by
  intro fuel
  induction fuel with
  | zero =>
    intro l c hc
    cases l with
    | nil => simp [chunks100Fuel] at hc
    | cons x rest => simp [chunks100Fuel] at hc
  | succ f ih =>
    intro l c hc
    cases l with
    | nil => simp [chunks100Fuel] at hc
    | cons x rest =>
      simp only [chunks100Fuel] at hc
      rcases List.mem_cons.mp hc with h | h
      · subst h
        simp only [List.length_take]
        exact Nat.min_le_left 100 (x :: rest).length
      · exact ih _ c h

/-- The chunk sizes are a function of the input length alone (fueled form). -/
theorem chunks100Fuel_map_length :
    ∀ (fuel : Nat) (l : List String), l.length ≤ fuel →
    (chunks100Fuel fuel l).map List.length = chunkLens100Fuel fuel l.length := by
  intro fuel
  induction fuel with
  | zero =>
    intro l hl
    cases l with
    | nil => rfl
    | cons x rest => simp at hl
  | succ f ih =>
    intro l hl
    cases l with
    | nil => rfl
    | cons x rest =>
      have hfit : ((x :: rest).drop 100).length ≤ f := by
        simp only [List.length_drop, List.length_cons]
        simp only [List.length_cons] at hl
        omega
      simp only [chunks100Fuel, List.map_cons, List.length_cons,
        chunkLens100Fuel]
      rw [List.length_take, List.length_cons, ih _ hfit,
        List.length_drop, List.length_cons]

/-- `chunks100`, concatenated, gives the URI list back. -/
theorem chunks100_flatten (l : List String) : (chunks100 l).flatten = l :=
  chunks100Fuel_flatten l.length l le_rfl

/-- Every `chunks100` batch holds at most 100 URIs. -/
theorem chunks100_le (l : List String) :
    ∀ c ∈ chunks100 l, c.length ≤ 100 :=
  fun c hc => chunks100Fuel_le l.length l c hc

/-- The batch sizes depend only on the number of URIs. -/
theorem chunks100_map_length (l : List String) :
    (chunks100 l).map List.length = chunkLens100 l.length :=
  chunks100Fuel_map_length l.length l le_rfl

/-- If every batch write completes (with any status), the loop issues one
call per chunk, in order. -/
theorem addTracksLoop_complete (env : SpotifyEnv) (pid : String)
    (hok : ∀ c, (env.addTracks pid c).isSome) :
    ∀ l, addTracksLoop env pid l = .ok l := by
  intro l
  induction l with
  | nil => rfl
  | cons c cs ih =>
    have hs := hok c
    cases hc : env.addTracks pid c with
    | none => rw [hc] at hs; simp at hs
    | some b => simp only [addTracksLoop, hc, ih]; rfl

/-- C8: matched URIs are written in consecutive batches of at most 100,
preserving order (their concatenation is the original list, and when every
write completes the loop issues exactly one call per batch, in order);
250 URIs produce exactly the batch sizes 100, 100, 50. -/
theorem playlist_batches (env : SpotifyEnv) (pid : String) (l : List String)
    (hok : ∀ c, (env.addTracks pid c).isSome) :
    (chunks100 l).flatten = l ∧
    (∀ c ∈ chunks100 l, c.length ≤ 100) ∧
    addTracksLoop env pid (chunks100 l) = .ok (chunks100 l) ∧
    (l.length = 250 → (chunks100 l).map List.length = [100, 100, 50]) := by
  refine ⟨chunks100_flatten l, chunks100_le l,
    addTracksLoop_complete env pid hok _, ?_⟩
  intro h250
  rw [chunks100_map_length, h250]
  decide

/-- C8, witness: 250 URIs under an environment whose writes all succeed. -/
theorem playlist_batches_witness :
    (chunks100 c8List).flatten = c8List ∧
    (∀ c ∈ chunks100 c8List, c.length ≤ 100) ∧
    addTracksLoop c8Env "p" (chunks100 c8List) = .ok (chunks100 c8List) ∧
    (c8List.length = 250 → (chunks100 c8List).map List.length =
      [100, 100, 50]) :=
  playlist_batches c8Env "p" c8List (fun _ => rfl)

/-- C2 (divergence at the failing input): a 2xx search response whose
`tracks` field is present with an empty item list and whose album list has
one entry does not trigger the album fallback — although the album-tracks
oracle would return a track, the resolution records nothing (and the run,
not aborted, returns the playlist URL with no write calls).  The fallback
in the source runs only when the `tracks` field is absent. -/
theorem resolveTracks_empty_tracklist_no_fallback :
    c2Env.albumTracks "ALB" = .ok (.ok ⟨[⟨"spotify:track:TRK"⟩]⟩) ∧
    resolveTracks c2Env [("ArtistA", "AlbumB")] = .ok [] ∧
    create_spotify_playlist c2Env "2026-10-12" [("ArtistA", "AlbumB")] =
      .ok ("https://open.spotify.com/playlist/pl1", []) :=
  ⟨rfl, rfl, rfl⟩

/-- C4, counterexample: a transport failure of one recommendation's search
aborts the whole run (the claim says it is logged and skipped). -/
theorem search_transport_fatal_cex :
    resolveTracks c4Env [("A", "B")] = .error () ∧
    create_spotify_playlist c4Env "2026-10-12" [("A", "B")] = .error () :=
  ⟨rfl, rfl⟩

/-- C4, amended: a non-2xx search response is logged and the recommendation
skipped without aborting the rest; a transport failure of the search
`send()`, or a deserialization failure of its 2xx body, aborts the run. -/
theorem search_failure_handling (env : SpotifyEnv)
    (a1 b1 a2 b2 a3 b3 : String) (rest : List (String × String))
    (h1 : env.search (searchQuery a1 b1) = .badStatus)
    (h2 : env.search (searchQuery a2 b2) = .transportErr)
    (h3 : env.search (searchQuery a3 b3) = .deserErr) :
    resolveTracks env ((a1, b1) :: rest) = resolveTracks env rest ∧
    resolveTracks env ((a2, b2) :: rest) = .error () ∧
    resolveTracks env ((a3, b3) :: rest) = .error () := by
  refine ⟨?_, ?_, ?_⟩ <;> simp only [resolveTracks, h1, h2, h3]

/-- C4, amended, witness: the three search outcomes at concrete queries. -/
theorem search_failure_handling_witness :
    resolveTracks c4WEnv [("A1", "B1")] = resolveTracks c4WEnv [] ∧
    resolveTracks c4WEnv [("A2", "B2")] = .error () ∧
    resolveTracks c4WEnv [("A3", "B3")] = .error () :=
  search_failure_handling c4WEnv "A1" "B1" "A2" "B2" "A3" "B3" []
    (by decide) (by decide) (by decide)

/-- C9, counterexample: a transport failure of a batch write's `send()`
aborts the run — `create_spotify_playlist` does not return the playlist
URL (the claim says any batch write failure only warns). -/
theorem addTracks_transport_fatal_cex :
    create_spotify_playlist c9Env "2026-10-12" [("A", "B")] = .error () := rfl

/-- C9, amended: a batch write that completes with a non-2xx status only
warns and the loop continues with the remaining batches; a transport
failure of a batch write aborts; when every batch write completes, the run
returns the playlist URL. -/
theorem batch_write_failure_handling (env : SpotifyEnv) (dateStr : String)
    (recs : List (String × String)) (playlist : SpotifyPlaylist)
    (uris : List String) (ch1 ch2 : List String) (rest : List (List String))
    (h1 : env.addTracks playlist.id ch1 = some false)
    (hp : env.createPlaylist (createPlaylistRequestFor dateStr) = .ok playlist)
    (hr : resolveTracks env recs = .ok uris) :
    addTracksLoop env playlist.id (ch1 :: rest) =
      Except.map (ch1 :: ·) (addTracksLoop env playlist.id rest) ∧
    (env.addTracks playlist.id ch2 = none →
      addTracksLoop env playlist.id (ch2 :: rest) = .error ()) ∧
    ((∀ c, (env.addTracks playlist.id c).isSome) →
      create_spotify_playlist env dateStr recs =
        .ok (playlist.external_urls.spotify, chunks100 uris)) := by
  refine ⟨?_, ?_, ?_⟩
  · simp only [addTracksLoop, h1]
  · intro h2
    simp only [addTracksLoop, h2]
  · intro hall
    unfold create_spotify_playlist
    simp only [hp, hr, addTracksLoop_complete env playlist.id hall]

/-- C9, amended, witness: an environment whose batch writes all complete
with non-2xx status still returns the playlist URL. -/
theorem batch_write_failure_handling_witness :
    addTracksLoop c9WEnv "pl9" [["x"]] =
      Except.map (["x"] :: ·) (addTracksLoop c9WEnv "pl9" []) ∧
    (c9WEnv.addTracks "pl9" ["y"] = none →
      addTracksLoop c9WEnv "pl9" [["y"]] = .error ()) ∧
    ((∀ c, (c9WEnv.addTracks "pl9" c).isSome) →
      create_spotify_playlist c9WEnv "2026-10-12" [("A", "B")] =
        .ok ("https://open.spotify.com/playlist/pl9",
          chunks100 ["spotify:track:T9"])) :=
  batch_write_failure_handling c9WEnv "2026-10-12" [("A", "B")]
    ⟨"pl9", ⟨"https://open.spotify.com/playlist/pl9"⟩⟩ ["spotify:track:T9"]
    ["x"] ["y"] [] rfl rfl rfl

/-- `resolveTracks` depends only on the `search` and `albumTracks`
oracles. -/
theorem resolveTracks_congr (e e' : SpotifyEnv)
    (hs : e.search = e'.search) (ha : e.albumTracks = e'.albumTracks) :
    ∀ recs, resolveTracks e recs = resolveTracks e' recs := by
  intro recs
  induction recs with
  | nil => rfl
  | cons p rest ih =>
    obtain ⟨artist, album⟩ := p
    cases hq : e'.search (searchQuery artist album) with
    | transportErr => simp only [resolveTracks, hs, hq]
    | badStatus => simp only [resolveTracks, hs, hq]; exact ih
    | deserErr => simp only [resolveTracks, hs, hq]
    | ok sr =>
      simp only [resolveTracks, hs, hq]
      cases ht : sr.tracks with
      | some tracks =>
        cases hh : tracks.items.head? with
        | some t => simp only [ht, hh]; rw [ih]
        | none => simp only [ht, hh]; exact ih
      | none =>
        simp only [ht]
        cases hb : sr.albums.items.head? with
        | none => simp only [hb]; exact ih
        | some ar =>
          simp only [hb, ha]
          cases hat : e'.albumTracks (albumIdOf ar.uri) with
          | error u => exact ih
          | ok inner =>
            cases inner with
            | error u => exact ih
            | ok tr =>
              cases hth : tr.items.head? with
              | some t => simp only [hth]; rw [ih]
              | none => simp only [hth]; exact ih

/-- `addTracksLoop` depends only on the `addTracks` oracle. -/
theorem addTracksLoop_congr (e e' : SpotifyEnv) (pid : String)
    (hadd : e.addTracks = e'.addTracks) :
    ∀ l, addTracksLoop e pid l = addTracksLoop e' pid l := by
  intro l
  induction l with
  | nil => rfl
  | cons c cs ih =>
    cases hc : e'.addTracks pid c with
    | none => simp only [addTracksLoop, hadd, hc]
    | some b => simp only [addTracksLoop, hadd, hc]; rw [ih]

/-- C10: the playlist-creation request is fixed — name
`"Last.fm Discoveries - <date>"`, a constant description, and
`public = false` — and `create_spotify_playlist` consults the creation
oracle only at that fixed request: two environments agreeing there (and on
the other oracles) run identically, whatever the creation oracle would
answer for any other name/description/visibility, for every recommendation
list. -/
theorem createPlaylist_request_fixed (env env' : SpotifyEnv)
    (dateStr : String) (recs : List (String × String))
    (hs : env.search = env'.search)
    (ha : env.albumTracks = env'.albumTracks)
    (hadd : env.addTracks = env'.addTracks)
    (hcp : env.createPlaylist (createPlaylistRequestFor dateStr) =
      env'.createPlaylist (createPlaylistRequestFor dateStr)) :
    (createPlaylistRequestFor dateStr).name =
      "Last.fm Discoveries - " ++ dateStr ∧
    (createPlaylistRequestFor dateStr).description =
      "Fresh music recommendations based on your Last.fm history" ∧
    (createPlaylistRequestFor dateStr).public = false ∧
    create_spotify_playlist env dateStr recs =
      create_spotify_playlist env' dateStr recs := by
  refine ⟨rfl, rfl, rfl, ?_⟩
  unfold create_spotify_playlist
  rw [hcp, resolveTracks_congr env env' hs ha recs]
  cases hpl : env'.createPlaylist (createPlaylistRequestFor dateStr) with
  | transportErr => rfl
  | badStatus => rfl
  | deserErr => rfl
  | ok playlist =>
    simp only [hpl]
    cases hr : resolveTracks env' recs with
    | error e => simp only [hr]
    | ok uris =>
      simp only [hr]
      rw [addTracksLoop_congr env env' playlist.id hadd]

/-- C10, witness: an environment whose creation oracle rejects every request
other than the fixed one runs identically to one that accepts anything. -/
theorem createPlaylist_request_fixed_witness :
    (createPlaylistRequestFor "2026-10-12").name =
      "Last.fm Discoveries - " ++ "2026-10-12" ∧
    (createPlaylistRequestFor "2026-10-12").description =
      "Fresh music recommendations based on your Last.fm history" ∧
    (createPlaylistRequestFor "2026-10-12").public = false ∧
    create_spotify_playlist c9WEnv "2026-10-12" [("A", "B")] =
      create_spotify_playlist c10Env "2026-10-12" [("A", "B")] :=
  createPlaylist_request_fixed c9WEnv c10Env "2026-10-12" [("A", "B")]
    rfl rfl rfl (by decide)

/-- `processSimilar` depends only on the `artistTopAlbums` oracle. -/
theorem processSimilar_congr (e e' : LastFmEnv)
    (h : e.artistTopAlbums = e'.artistTopAlbums) :
    ∀ (l : List SimilarArtist) (recs : List (String × String)),
      processSimilar e recs l = processSimilar e' recs l := by
  intro l
  induction l with
  | nil => intro recs; rfl
  | cons s rest ih =>
    intro recs
    cases hx : e'.artistTopAlbums s.name with
    | error u => simp only [processSimilar, h, hx]
    | ok o =>
      cases o with
      | none => simp only [processSimilar, h, hx]; exact ih recs
      | some ta =>
        cases hh : ta.topalbums.album.head? with
        | none => simp only [processSimilar, h, hx, hh]; exact ih recs
        | some tb =>
          simp only [processSimilar, h, hx, hh]
          by_cases hlen : (recs ++ [(s.name, tb.name)]).length ≥ 10
          · simp only [if_pos hlen]
          · simp only [if_neg hlen]; exact ih _

/-- `processAlbums` depends only on the `similar` and `artistTopAlbums`
oracles. -/
theorem processAlbums_congr (e e' : LastFmEnv)
    (hsim : e.similar = e'.similar)
    (hata : e.artistTopAlbums = e'.artistTopAlbums) :
    ∀ (albums : List TopAlbum) (seen : List String)
      (recs : List (String × String)),
      processAlbums e seen recs albums = processAlbums e' seen recs albums := by
  intro albums
  induction albums with
  | nil => intro seen recs; rfl
  | cons b rest ih =>
    intro seen recs
    by_cases hmem : b.artist.name ∈ seen
    · simp only [processAlbums, if_pos hmem]; exact ih seen recs
    · simp only [processAlbums, if_neg hmem, hsim]
      cases hx : e'.similar b.artist.name with
      | error u => simp only [hx]
      | ok o =>
        cases o with
        | none => simp only [hx]; exact ih _ recs
        | some sim =>
          simp only [hx]
          rw [processSimilar_congr e e' hata]
          cases hps : processSimilar e' recs
              (sim.similarartists.artist.take 2) with
          | error u => simp only [hps]
          | ok pr =>
            obtain ⟨recs', done⟩ := pr
            cases done
            · simp only [hps]; exact ih _ _
            · simp only [hps]

/-- An album whose artist is in `seen_artists`, or occurred earlier in the
top-albums list, is skipped: removing it does not change the result. -/
theorem processAlbums_skip_dup (env : LastFmEnv) (a : TopAlbum) :
    ∀ (albums extra : List TopAlbum) (seen : List String)
      (recs : List (String × String)),
      (a.artist.name ∈ seen ∨
        a.artist.name ∈ albums.map (fun t => t.artist.name)) →
      processAlbums env seen recs (albums ++ a :: extra) =
        processAlbums env seen recs (albums ++ extra) := by
  intro albums
  induction albums with
  | nil =>
    intro extra seen recs hmem
    rcases hmem with hmem | hmem
    · simp only [List.nil_append, processAlbums, if_pos hmem]
    · simp at hmem
  | cons b rest ih =>
    intro extra seen recs hmem
    simp only [List.cons_append, processAlbums]
    by_cases hb : b.artist.name ∈ seen
    · simp only [if_pos hb]
      refine ih _ _ _ ?_
      rcases hmem with h | h
      · exact Or.inl h
      · simp only [List.map_cons, List.mem_cons] at h
        rcases h with h | h
        · exact Or.inl (by rw [h]; exact hb)
        · exact Or.inr h
    · simp only [if_neg hb]
      have hmem' : a.artist.name ∈ b.artist.name :: seen ∨
          a.artist.name ∈ rest.map (fun t => t.artist.name) := by
        rcases hmem with h | h
        · exact Or.inl (List.mem_cons_of_mem _ h)
        · simp only [List.map_cons, List.mem_cons] at h
          rcases h with h | h
          · exact Or.inl (by rw [h]; exact List.mem_cons_self _ _)
          · exact Or.inr h
      cases hx : env.similar b.artist.name with
      | error u => simp only [hx]
      | ok o =>
        cases o with
        | none => simp only [hx]; exact ih _ _ _ hmem'
        | some sim =>
          simp only [hx]
          cases hps : processSimilar env recs
              (sim.similarartists.artist.take 2) with
          | error u => simp only [hps]
          | ok pr =>
            obtain ⟨recs', done⟩ := pr
            cases done
            · simp only [hps]; exact ih _ _ _ hmem'
            · simp only [hps]

/-- C1, counterexample: two top artists sharing the similar artist
`"SharedSimilar"` yield a recommendation list with a duplicated artist —
`seen_artists` tracks only the outer top-album artists, never the similar
artists that actually contribute the recommendations. -/
theorem get_recommendations_duplicate_artist_cex :
    get_recommendations c1Env =
      .ok [("SharedSimilar", "SimTop"), ("SharedSimilar", "SimTop")] ∧
    ¬ ([("SharedSimilar", "SimTop"), ("SharedSimilar", "SimTop")].map
        Prod.fst).Nodup :=
  ⟨rfl, by decide⟩

/-- C1, amended: the deduplication applies to the outer top-album artists —
an album whose artist already occurred earlier in the top-albums list is
skipped and contributes nothing (while the artists of the returned
recommendations, the similar artists, can repeat, as the counterexample
shows). -/
theorem get_recommendations_dedups_top_artists
    (sim : String → Except Unit (Option SimilarArtists))
    (ata : String → Except Unit (Option TopAlbums))
    (albums extra : List TopAlbum) (a : TopAlbum)
    (hdup : a.artist.name ∈ albums.map (fun t => t.artist.name)) :
    get_recommendations ⟨.ok ⟨⟨albums ++ a :: extra⟩⟩, sim, ata⟩ =
      get_recommendations ⟨.ok ⟨⟨albums ++ extra⟩⟩, sim, ata⟩ :=
  calc get_recommendations ⟨.ok ⟨⟨albums ++ a :: extra⟩⟩, sim, ata⟩
      = processAlbums ⟨.ok ⟨⟨albums ++ a :: extra⟩⟩, sim, ata⟩ [] []
          (albums ++ a :: extra) := rfl
    _ = processAlbums ⟨.ok ⟨⟨albums ++ a :: extra⟩⟩, sim, ata⟩ [] []
          (albums ++ extra) :=
        processAlbums_skip_dup _ a albums extra [] [] (Or.inr hdup)
    _ = processAlbums ⟨.ok ⟨⟨albums ++ extra⟩⟩, sim, ata⟩ [] []
          (albums ++ extra) :=
        processAlbums_congr ⟨.ok ⟨⟨albums ++ a :: extra⟩⟩, sim, ata⟩
          ⟨.ok ⟨⟨albums ++ extra⟩⟩, sim, ata⟩ rfl rfl _ _ _
    _ = get_recommendations ⟨.ok ⟨⟨albums ++ extra⟩⟩, sim, ata⟩ := rfl

/-- C1, amended, witness: a second album by an already-processed artist is
skipped. -/
theorem get_recommendations_dedups_top_artists_witness :
    get_recommendations
        ⟨.ok ⟨⟨[⟨"Album1", ⟨"ArtistA"⟩⟩, ⟨"Album2", ⟨"ArtistA"⟩⟩]⟩⟩,
          c1Sim, c1Ata⟩ =
      get_recommendations ⟨.ok ⟨⟨[⟨"Album1", ⟨"ArtistA"⟩⟩]⟩⟩, c1Sim, c1Ata⟩ :=
  get_recommendations_dedups_top_artists c1Sim c1Ata
    [⟨"Album1", ⟨"ArtistA"⟩⟩] [] ⟨"Album2", ⟨"ArtistA"⟩⟩ (by decide)

/-- C3, counterexample: a transport failure of a similar-artist lookup is
fatal — `get_recommendations` aborts instead of continuing with "no
result" (which would have returned `.ok []` here). -/
theorem similar_transport_fatal_cex :
    get_recommendations c3Env = .error () ∧
    (Except.error () : Except Unit (List (String × String))) ≠ .ok [] :=
  ⟨rfl, by simp⟩

/-- C3, amended: a deserialization failure of a similar-artist or per-artist
top-album lookup is non-fatal (treated as "no result", iteration continues);
a transport failure of either lookup propagates through `?` and aborts the
run, as does any failure of the initial top-albums call. -/
theorem lookup_failure_handling (env : LastFmEnv) (b : TopAlbum)
    (rest : List TopAlbum) (s : SimilarArtist) (rest2 : List SimilarArtist)
    (seen : List String) (recs : List (String × String))
    (hseen : b.artist.name ∉ seen) :
    (env.similar b.artist.name = .ok none →
      processAlbums env seen recs (b :: rest) =
        processAlbums env (b.artist.name :: seen) recs rest) ∧
    (env.artistTopAlbums s.name = .ok none →
      processSimilar env recs (s :: rest2) = processSimilar env recs rest2) ∧
    (env.similar b.artist.name = .error () →
      processAlbums env seen recs (b :: rest) = .error ()) ∧
    (env.artistTopAlbums s.name = .error () →
      processSimilar env recs (s :: rest2) = .error ()) ∧
    (env.topAlbums = .error () → get_recommendations env = .error ()) := by
  refine ⟨?_, ?_, ?_, ?_, ?_⟩
  · intro h; simp only [processAlbums, if_neg hseen, h]
  · intro h; simp only [processSimilar, h]
  · intro h; simp only [processAlbums, if_neg hseen, h]
  · intro h; simp only [processSimilar, h]
  · intro h; simp only [get_recommendations, h]

/-- C3, amended, witness: the five outcomes at `c3Env` and concrete
artists. -/
theorem lookup_failure_handling_witness :
    (c3Env.similar "A" = .ok none →
      processAlbums c3Env [] [] [⟨"Alb", ⟨"A"⟩⟩] =
        processAlbums c3Env ["A"] [] []) ∧
    (c3Env.artistTopAlbums "S" = .ok none →
      processSimilar c3Env [] [⟨"S"⟩] = processSimilar c3Env [] []) ∧
    (c3Env.similar "A" = .error () →
      processAlbums c3Env [] [] [⟨"Alb", ⟨"A"⟩⟩] = .error ()) ∧
    (c3Env.artistTopAlbums "S" = .error () →
      processSimilar c3Env [] [⟨"S"⟩] = .error ()) ∧
    (c3Env.topAlbums = .error () → get_recommendations c3Env = .error ()) :=
  lookup_failure_handling c3Env ⟨"Alb", ⟨"A"⟩⟩ [] ⟨"S"⟩ [] [] [] (by decide)

/-- Reaching 10 recommendations returns `done = true` with exactly 10; not
reaching it leaves fewer than 10. -/
theorem processSimilar_ok_length (env : LastFmEnv) :
    ∀ (l : List SimilarArtist) (recs r : List (String × String)) (d : Bool),
      processSimilar env recs l = .ok (r, d) → recs.length < 10 →
      (d = true → r.length = 10) ∧ (d = false → r.length < 10) := by
  intro l
  induction l with
  | nil =>
    intro recs r d h hlt
    simp only [processSimilar, Except.ok.injEq, Prod.mk.injEq] at h
    obtain ⟨h1, h2⟩ := h
    subst h1
    subst h2
    exact ⟨(fun hc => absurd hc (by decide)), (fun _ => hlt)⟩
  | cons s rest ih =>
    intro recs r d h hlt
    cases hx : env.artistTopAlbums s.name with
    | error u => simp [processSimilar, hx] at h
    | ok o =>
      cases o with
      | none =>
        simp only [processSimilar, hx] at h
        exact ih recs r d h hlt
      | some ta =>
        cases hh : ta.topalbums.album.head? with
        | none =>
          simp only [processSimilar, hx, hh] at h
          exact ih recs r d h hlt
        | some tb =>
          simp only [processSimilar, hx, hh] at h
          by_cases hlen : (recs ++ [(s.name, tb.name)]).length ≥ 10
          · rw [if_pos hlen] at h
            simp only [Except.ok.injEq, Prod.mk.injEq] at h
            obtain ⟨h1, h2⟩ := h
            subst h2
            constructor
            · intro _
              rw [← h1]
              simp only [List.length_append, List.length_cons,
                List.length_nil] at hlen ⊢
              omega
            · intro hc
              exact nomatch hc
          · rw [if_neg hlen] at h
            refine ih _ r d h ?_
            simp only [List.length_append, List.length_cons,
              List.length_nil] at hlen ⊢
            omega

/-- Starting under the cap, the outer loop never returns more than 10
recommendations. -/
theorem processAlbums_ok_length (env : LastFmEnv) :
    ∀ (albums : List TopAlbum) (seen : List String)
      (recs r : List (String × String)),
      recs.length < 10 → processAlbums env seen recs albums = .ok r →
      r.length ≤ 10 := by
  intro albums
  induction albums with
  | nil =>
    intro seen recs r hlt h
    simp only [processAlbums, Except.ok.injEq] at h
    subst h
    omega
  | cons b rest ih =>
    intro seen recs r hlt h
    by_cases hb : b.artist.name ∈ seen
    · simp only [processAlbums, if_pos hb] at h
      exact ih _ _ _ hlt h
    · simp only [processAlbums, if_neg hb] at h
      cases hx : env.similar b.artist.name with
      | error u => simp [hx] at h
      | ok o =>
        cases o with
        | none =>
          simp only [hx] at h
          exact ih _ _ _ hlt h
        | some sim =>
          simp only [hx] at h
          cases hps : processSimilar env recs
              (sim.similarartists.artist.take 2) with
          | error u => simp [hps] at h
          | ok pr =>
            obtain ⟨recs', d⟩ := pr
            have hlen := processSimilar_ok_length env _ recs recs' d hps hlt
            cases d
            · simp only [hps] at h
              exact ih _ _ _ (hlen.2 rfl) h
            · simp only [hps, Except.ok.injEq] at h
              subst h
              rw [hlen.1 rfl]

/-- Once the outer loop has returned a full list of 10, appending further top
albums changes nothing: the early `return` fired before they were reached. -/
theorem processAlbums_extend (env : LastFmEnv) :
    ∀ (albums : List TopAlbum) (seen : List String)
      (recs r : List (String × String)),
      recs.length < 10 → processAlbums env seen recs albums = .ok r →
      r.length = 10 →
      ∀ extra, processAlbums env seen recs (albums ++ extra) = .ok r := by
  intro albums
  induction albums with
  | nil =>
    intro seen recs r hlt h h10 extra
    simp only [processAlbums, Except.ok.injEq] at h
    subst h
    omega
  | cons b rest ih =>
    intro seen recs r hlt h h10 extra
    simp only [List.cons_append]
    by_cases hb : b.artist.name ∈ seen
    · simp only [processAlbums, if_pos hb] at h ⊢
      exact ih _ _ _ hlt h h10 extra
    · simp only [processAlbums, if_neg hb] at h ⊢
      cases hx : env.similar b.artist.name with
      | error u => simp [hx] at h
      | ok o =>
        cases o with
        | none =>
          simp only [hx] at h ⊢
          exact ih _ _ _ hlt h h10 extra
        | some sim =>
          simp only [hx] at h ⊢
          cases hps : processSimilar env recs
              (sim.similarartists.artist.take 2) with
          | error u => simp [hps] at h
          | ok pr =>
            obtain ⟨recs', d⟩ := pr
            cases d
            · simp only [hps] at h ⊢
              have hlen :=
                (processSimilar_ok_length env _ recs recs' false hps hlt).2 rfl
              exact ih _ _ _ hlen h h10 extra
            · simp only [hps] at h ⊢
              exact h

/-- C6: the discovery output never exceeds 10 recommendations; a full output
of 10 is unchanged by any further top albums (the early `return` fired
before they were reached); and the 10th insertion returns immediately from
inside the inner similar-artist iteration, whatever similar artists remain
after it. -/
theorem get_recommendations_cap10
    (sim : String → Except Unit (Option SimilarArtists))
    (ata : String → Except Unit (Option TopAlbums))
    (albums extra : List TopAlbum) (r recs : List (String × String))
    (s : SimilarArtist) (rest : List SimilarArtist)
    (tas : TopAlbums) (tb : TopAlbum)
    (h : get_recommendations ⟨.ok ⟨⟨albums⟩⟩, sim, ata⟩ = .ok r)
    (h9 : recs.length = 9)
    (hata : ata s.name = .ok (some tas))
    (hd : tas.topalbums.album.head? = some tb) :
    r.length ≤ 10 ∧
    (r.length = 10 →
      get_recommendations ⟨.ok ⟨⟨albums ++ extra⟩⟩, sim, ata⟩ = .ok r) ∧
    processSimilar ⟨.ok ⟨⟨albums⟩⟩, sim, ata⟩ recs (s :: rest) =
      .ok (recs ++ [(s.name, tb.name)], true) := by
  have h' : processAlbums ⟨.ok ⟨⟨albums⟩⟩, sim, ata⟩ [] [] albums = .ok r := h
  refine ⟨processAlbums_ok_length _ _ _ _ _ (by decide) h', ?_, ?_⟩
  · intro h10
    calc get_recommendations ⟨.ok ⟨⟨albums ++ extra⟩⟩, sim, ata⟩
        = processAlbums ⟨.ok ⟨⟨albums ++ extra⟩⟩, sim, ata⟩ [] []
            (albums ++ extra) := rfl
      _ = processAlbums ⟨.ok ⟨⟨albums⟩⟩, sim, ata⟩ [] [] (albums ++ extra) :=
          processAlbums_congr ⟨.ok ⟨⟨albums ++ extra⟩⟩, sim, ata⟩
            ⟨.ok ⟨⟨albums⟩⟩, sim, ata⟩ rfl rfl _ _ _
      _ = .ok r := processAlbums_extend _ albums [] [] r (by decide) h' h10 extra
  · simp only [processSimilar, hata, hd]
    rw [if_pos (by simp only [List.length_append, List.length_cons,
      List.length_nil, h9]; omega)]

/-- C6, witness: six top artists with two similar artists each overflow the
cap; the output has exactly 10 entries, a seventh album changes nothing,
and at nine accumulated recommendations the next insertion returns
immediately, ignoring the remaining similar artist. -/
theorem get_recommendations_cap10_witness :
    c6Out.length ≤ 10 ∧
    (c6Out.length = 10 →
      get_recommendations
        ⟨.ok ⟨⟨c6Albums ++ [⟨"Alb7", ⟨"A7"⟩⟩]⟩⟩, c6Sim, c6Ata⟩ = .ok c6Out) ∧
    processSimilar ⟨.ok ⟨⟨c6Albums⟩⟩, c6Sim, c6Ata⟩ c6Nine (⟨"Z"⟩ :: [⟨"W"⟩]) =
      .ok (c6Nine ++ [("Z", "Zalb")], true) :=
  get_recommendations_cap10 c6Sim c6Ata c6Albums [⟨"Alb7", ⟨"A7"⟩⟩] c6Out
    c6Nine ⟨"Z"⟩ [⟨"W"⟩] ⟨⟨[⟨"Zalb", ⟨"Z"⟩⟩]⟩⟩ ⟨"Zalb", ⟨"Z"⟩⟩
    rfl (by decide) rfl rfl

/-- C5, witness: same code, different/absent state. -/
theorem extract_code_ignores_state_witness :
    extract_code "GET /callback?code=ABC123&state=XYZ HTTP/1.1" =
      extract_code "GET /callback?code=ABC123 HTTP/1.1" ∧
    Except.map (fun c => tokenRequestForm c "http://localhost:8888/callback")
        (extract_code "GET /callback?code=ABC123&state=XYZ HTTP/1.1") =
      Except.map (fun c => tokenRequestForm c "http://localhost:8888/callback")
        (extract_code "GET /callback?code=ABC123 HTTP/1.1") :=
  extract_code_ignores_state _ _ "/callback?code=ABC123&state=XYZ"
    "/callback?code=ABC123" _ (by decide) (by decide) (by decide)

end LastSpot
